import Mathlib

/-!
Verification of the Swellyo chat backend (src/backend/main.py).

The backend is a FastAPI service with four routes: POST /new_chat,
POST /chats/{chat_id}/continue, GET /chats/{chat_id} and GET /health.
It keeps an in-memory dict `chats` from chat id to a list of
role/content message dicts.

Modelling decisions (external capabilities, not repository code):
* The OpenAI completion call (`openai_client.chat.completions.create`) is an
  opaque capability: the handlers are parameterized over
  `llm : ModelCall → Except Unit String`, where `ModelCall` records the
  arguments the handler passes (model name, message history, max_tokens,
  temperature, store flag, response_format constraint) and the result is
  either a raised exception (`.error`) or the reply text (`.ok`).
  The float temperature 0.7 is recorded as tenths (7) since no claim
  inspects it numerically.
* Python `json.loads` is standard-library code: the handlers are
  parameterized over `parse : String → ParseOutcome`, which either raises
  `json.JSONDecodeError` or returns a JSON value. JSON numbers are carried
  as `Int`; the handlers never inspect numeric values so the carrier is
  irrelevant to every claim.
* `str(uuid.uuid4())` is standard-library code: the handlers are
  parameterized over `uuid : Nat → String`, the sequence of identifiers the
  generator produces during the process lifetime; the server state counts
  how many have been drawn. The uuid4 uniqueness guarantee is the explicit
  hypothesis `Function.Injective uuid` on the theorems that need it.
-/

namespace Swellyo

/-- A chat turn: one `\x7b"role": ..., "content": ...\x7d` dict in a history list. -/
structure Turn where
  role : String
  content : String
deriving Repr, DecidableEq

/-- A chat history: the ordered list of turns stored under one chat id. -/
abbrev History := List Turn

/-- JSON values, as returned by Python `json.loads`. -/
inductive Json where
  | null
  | bool (b : Bool)
  | num (n : Int)
  | str (s : String)
  | arr (elems : List Json)
  | obj (fields : List (String × Json))
deriving Repr

/-- Outcome of `json.loads raw`: either it raises `json.JSONDecodeError`
(the only exception the inner `try` of the handlers catches), or it returns
a parsed JSON value. -/
inductive ParseOutcome where
  | decodeError
  | ok (v : Json)
deriving Repr

/-- The dict a handler returns on success (the `chat_id` key of /new_chat is
kept separately in `NewChatOk`). The handlers build it with `dict.get`, so
each field can be an arbitrary JSON value taken from the model reply. -/
structure StructuredReply where
  return_message : Json
  is_finished : Json
  data : Json
deriving Repr

/-- The argument record of one `openai_client.chat.completions.create` call. -/
structure ModelCall where
  model : String
  messages : History
  max_tokens : Nat
  temperature_tenths : Nat
  store : Bool
  response_format_json : Bool
deriving Repr, DecidableEq

/-- The HTTPException outcomes the handlers produce: 404 Chat not found, or
500 Error processing chat (from the final `except Exception` clause). -/
inductive HttpError where
  | notFound
  | internalError
deriving Repr, DecidableEq

/-- The mutable module state: the `chats` dict plus how many uuid4 values
have been drawn so far in this process. -/
structure ServerState where
  nextUuid : Nat
  chats : List (String × History)
deriving Repr, DecidableEq

/-- Python dict read `chats.get(id)` / `id in chats`: first binding wins
(the store never holds two bindings of one key). -/
def lookupChat (store : List (String × History)) (id : String) : Option History :=
  match store with
  | [] => none
  | (k, h) :: rest => if k = id then some h else lookupChat rest id

/-- Python dict write `chats[id] = h`: replace the binding if present,
otherwise append a new one. -/
def setChat (store : List (String × History)) (id : String) (h : History) :
    List (String × History) :=
  match store with
  | [] => [(id, h)]
  | (k, h0) :: rest => if k = id then (id, h) :: rest else (k, h0) :: setChat rest id h

/-- Python `fields.get(key, dflt)` on a dict decoded from JSON. `json.loads`
collapses duplicate keys, so realizable field lists bind each key once and
first-match lookup agrees with `dict.get`. -/
def objGetD (fields : List (String × Json)) (key : String) (dflt : Json) : Json :=
  match fields with
  | [] => dflt
  | (k, v) :: rest => if k = key then v else objGetD rest key dflt

/-- The plain-text fallback reply built in the `except json.JSONDecodeError`
branch of both handlers. -/
def fallbackReply (raw : String) : StructuredReply :=
  { return_message := .str raw, is_finished := .bool false, data := .null }

/-- The shared parse-or-fallback block of `new_chat` and `continue_chat`:
`json.loads` the reply; on `JSONDecodeError` return the raw-text fallback;
otherwise read the three fields with `dict.get`. When `json.loads` returns a
non-dict value (number, string, list, bool, null), `.get` raises
`AttributeError`, which the inner `except json.JSONDecodeError` does not
catch; that escape is `.error ()` here and becomes HTTP 500 in the handler. -/
def processReply (parse : String → ParseOutcome) (raw : String) :
    Except Unit StructuredReply :=
  match parse raw with
  | .decodeError => .ok (fallbackReply raw)
  | .ok (.obj fields) =>
      .ok { return_message := objGetD fields "return_message" (.str raw),
            is_finished := objGetD fields "is_finished" (.bool false),
            data := objGetD fields "data" .null }
  | .ok _ => .error ()

/-- The fixed `meta_prompt` string of `new_chat` (main.py lines 64-137),
verbatim (Python triple-quoted string contents, braces escaped). -/
def metaPrompt : String := "\n        Your goal is to collect: destinations, travel_style, surf_pref, and extras. Only set is_finished: true when you have all four pieces of information.\n        \n        A smart, laid-back surfer who‚Äôs the ultimate go-to buddy for all things surfing and beach lifestyle. He‚Äôs a cool local friend, full of knowledge about surfing destinations, techniques, and ocean safety, with insights about waves, travel tips, and coastal culture. His tone is relaxed, friendly, and cheerful, with just the right touch of warm, uplifting energy. A sharper edge of surf-related sarcasm keeps the vibe lively and fun, like quipping about rookies wiping out or \"perfect\" conditions for no-shows. He‚Äôs smart, resourceful, and genuinely supportive, with responses no longer than 120 words. When offering options, he keeps it short with 2-3 clear choices. Responses avoid overusing words like \"chill,\" staying vibrant and fresh, and occasionally use casual text-style abbreviations like \"ngl\" or \"imo\". Uses the words dude, bro, shredder, gnarly, stoke.\n\nResponse should be in JSON.\n\nExample conversation:\nGiven context - 23 years old, Israeli, 8-10 surf trips, Charging surfer\n\n\x7b\n    \"return_message\": \"Which 2-3 surf zones you‚Äôd say you really know inside-out? Like towns or areas you‚Äôve actually lived/surfed enough to call your stomping grounds abroad?\",\n    \"is_finished\": false,\n    \"data\": null\n\x7d\n\nUser said:\nI'd say, San Diego, south county, Sri lanka in kabalana ahangama midigama and towns around, Maldives at thulusdhoo and himmafushi\n\n\x7b\n    \"return_message\": \"Solid list bro, that‚Äôs some tasty variety üåäüî•\nNow gimme a bit more juice on each: how much time you‚Äôve actually clocked in San Diego, Sri Lanka, and Maldives? Like number of trips, how long you stayed, and how recent? Also‚Äîany local ties (friends, fam, surf crew) or just surf‚Äôn‚Äôgo?\",\n    \"is_finished\": false,\n    \"data\": null\n\x7d\n\nUser said:\nSD - 3 weeks once, then 7 months. known a lot of locals. was this year. sri lanka - twice for a month each- winter 2023 and 2024, knows a bunch of locals. maldives 1 month\n\n\x7b\n    \"return_message\": \"Nice r√©sum√©, dude üëå That‚Äôs deep roots, esp. with SD locals.\nNext thing‚Äîwhat‚Äôs your usual surf/travel style? Like:\nYou more on a budget or mid/high spender?\",\n    \"is_finished\": false,\n    \"data\": null\n\x7d\n\nUser said:\nbudget, solo or another friend, usually remote work as well, like to party, local culture, nature, etc\n\n\x7b\n    \"return_message\": \"Got it bro ü§ô budget shredder, mixing work, waves, and some late nights with culture + nature stoke.\nNow wave-wise‚Äîwhat‚Äôs your sweet spot? Talking size, reef vs sand, crowds, comfort with barrels vs mellower peelers. What kinda setups really fire you up?\",\n    \"is_finished\": false,\n    \"data\": null\n\x7d\n\nUser said:\nbarrels and hard fast big waves. rather no crowd, but can surf crowds. reef and sand both work\n\n\x7b\n    \"return_message\": \"Hell yeah, charger vibes üèÑ‚Äç‚ôÇÔ∏èüí• hunting barrels, power, and less crowd if possible, but not afraid of a packed lineup. Last piece, bro‚Äîoutside the surf: any general trip must-do‚Äôs or lifestyle things? (Like sustainability, local food, art, diving, community stuff, yoga, fishing, etc). What makes a trip feel complete for you?\",\n    \"is_finished\": false,\n    \"data\": null\n\x7d\n\n\nUser said:\nsupport sustainabilty, not too much on it. doing valley ball and climbing. love exploring cool spots and nature. do mobility and stretches.\n\n\x7b\n   \"return_message\": \"Epic, that paints the full picture ü§ü so we‚Äôve got:\"\n   \"is_finihsed\": True,\n   \"data\": \x7b\n        \"destinations\":  \"San Diego (7mo + crew), Sri Lanka (Ahangama/Kabalana/Midigama twice), Maldives (Thulusdhoo/Himmafushi 1mo)\",\n         \"travel_style\": \"budget, solo/1 friend, remote-work + surf, mix of party/culture/nature\",\n          \"surf_pref\": \"barrels, big/fast waves, low crowd if possible, comfy on reef/sand\",\n          \"extras\":  \"care for sustainability, volleyball, climbing, exploring/nature missions, mobility work\"\n    \x7d\n\x7d \n\n\nIMPORTANT NOTICE ! - I sent the json only in the end, but you should always return  the message in this json format, and while is_finished is false data is null\n        "

/-- The two seed turns `new_chat` stores under the fresh chat id before
calling the model. -/
def newChatMessages (message : String) : History :=
  [⟨"system", metaPrompt⟩, ⟨"user", message⟩]

/-- The completion call `new_chat` makes: model gpt-4.1, the seeded history,
max_tokens 500, temperature 0.7, store True, JSON-object response format. -/
def newChatCall (message : String) : ModelCall :=
  { model := "gpt-4.1", messages := newChatMessages message, max_tokens := 500,
    temperature_tenths := 7, store := true, response_format_json := true }

/-- The completion call `continue_chat` makes: model gpt-4, the accumulated
history, max_tokens 500, temperature 0.7, no store flag (API default false),
no response_format constraint. -/
def continueCall (messages : History) : ModelCall :=
  { model := "gpt-4", messages := messages, max_tokens := 500,
    temperature_tenths := 7, store := false, response_format_json := false }

/-- The success payload of POST /new_chat: the fresh chat id plus the
structured reply fields. -/
structure NewChatOk where
  chat_id : String
  reply : StructuredReply
deriving Repr

/-- POST /new_chat (main.py lines 47-183): draw a fresh uuid, seed the
history with the meta-prompt and the user message, call the model, append
the raw reply to the history, then parse-or-fallback. Any exception other
than JSONDecodeError (a failed model call, or AttributeError from `.get` on
a non-dict) reaches `except Exception` and becomes HTTP 500; state changes
made before the exception persist. -/
def new_chat (llm : ModelCall → Except Unit String) (parse : String → ParseOutcome)
    (uuid : Nat → String) (st : ServerState) (message : String) :
    Except HttpError NewChatOk × ServerState :=
  let chat_id := uuid st.nextUuid
  let st1 : ServerState :=
    { nextUuid := st.nextUuid + 1,
      chats := setChat st.chats chat_id (newChatMessages message) }
  match llm (newChatCall message) with
  | .error _ => (.error .internalError, st1)
  | .ok raw =>
    let st2 : ServerState :=
      { st1 with
        chats := setChat st1.chats chat_id (newChatMessages message ++ [⟨"assistant", raw⟩]) }
    match processReply parse raw with
    | .ok r => (.ok ⟨chat_id, r⟩, st2)
    | .error _ => (.error .internalError, st2)

/-- POST /chats/\x7bchat_id\x7d/continue (main.py lines 190-246): 404 if the
id is unknown; otherwise append the user message, call the model on the full
history, append the raw reply, then parse-or-fallback. The
`except HTTPException: raise` clause re-raises the 404; any other exception
becomes HTTP 500, with prior state changes persisting. -/
def continue_chat (llm : ModelCall → Except Unit String) (parse : String → ParseOutcome)
    (st : ServerState) (chat_id : String) (message : String) :
    Except HttpError StructuredReply × ServerState :=
  match lookupChat st.chats chat_id with
  | none => (.error .notFound, st)
  | some hist =>
    let hist1 := hist ++ [⟨"user", message⟩]
    let st1 : ServerState := { st with chats := setChat st.chats chat_id hist1 }
    match llm (continueCall hist1) with
    | .error _ => (.error .internalError, st1)
    | .ok raw =>
      let hist2 := hist1 ++ [⟨"assistant", raw⟩]
      let st2 : ServerState := { st with chats := setChat st.chats chat_id hist2 }
      match processReply parse raw with
      | .ok r => (.ok r, st2)
      | .error _ => (.error .internalError, st2)

/-- The success payload of GET /chats/\x7bchat_id\x7d. -/
structure HistoryOk where
  chat_id : String
  messages : History
deriving Repr, DecidableEq

/-- GET /chats/\x7bchat_id\x7d (main.py lines 248-262): 404 if unknown,
otherwise the stored history verbatim. Reads only; the state is unchanged. -/
def get_chat_history (st : ServerState) (chat_id : String) :
    Except HttpError HistoryOk :=
  match lookupChat st.chats chat_id with
  | none => .error .notFound
  | some h => .ok ⟨chat_id, h⟩

/-! ### Store lemmas -/

/-- Reading back the key just written. -/
theorem lookupChat_setChat_self (store : List (String × History)) (id : String)
    (h : History) : lookupChat (setChat store id h) id = some h := by
  induction store with
  | nil => simp [setChat, lookupChat]
  | cons p rest ih =>
    obtain ⟨k, h0⟩ := p
    by_cases hk : k = id <;> simp [setChat, lookupChat, hk, ih]

/-- Writing one key leaves every other key unchanged. -/
theorem lookupChat_setChat_ne (store : List (String × History)) (id id' : String)
    (h : History) (hne : id' ≠ id) :
    lookupChat (setChat store id h) id' = lookupChat store id' := by
  induction store with
  | nil => simp [setChat, lookupChat, Ne.symm hne]
  | cons p rest ih =>
    obtain ⟨k, h0⟩ := p
    by_cases hk : k = id
    · subst hk
      simp [setChat, lookupChat, hne, Ne.symm hne]
    · simp [setChat, lookupChat, hk, ih]

/-- A key present after a write was either the written key or already bound. -/
theorem lookupChat_setChat_some (store : List (String × History)) (id id' : String)
    (h h' : History) (hx : lookupChat (setChat store id h) id' = some h') :
    id' = id ∨ lookupChat store id' = some h' := by
  by_cases hne : id' = id
  · exact Or.inl hne
  · rw [lookupChat_setChat_ne store id id' h hne] at hx
    exact Or.inr hx

/-- Two writes to one key collapse to the second. -/
theorem setChat_setChat (store : List (String × History)) (id : String)
    (h1 h2 : History) : setChat (setChat store id h1) id h2 = setChat store id h2 := by
  induction store with
  | nil => simp [setChat]
  | cons p rest ih =>
    obtain ⟨k, h0⟩ := p
    by_cases hk : k = id <;> simp [setChat, hk, ih]

/-! ### Run-shape lemmas for the handlers -/

/-- Forward evaluation of a successful `new_chat` run. -/
theorem new_chat_eq_of_ok (llm : ModelCall → Except Unit String)
    (parse : String → ParseOutcome) (uuid : Nat → String) (st : ServerState)
    (m raw : String) (rep : StructuredReply)
    (hllm : llm (newChatCall m) = .ok raw)
    (hpr : processReply parse raw = .ok rep) :
    new_chat llm parse uuid st m =
      (.ok ⟨uuid st.nextUuid, rep⟩,
       ⟨st.nextUuid + 1,
        setChat st.chats (uuid st.nextUuid)
          (newChatMessages m ++ [⟨"assistant", raw⟩])⟩) := by
  simp [new_chat, hllm, hpr, setChat_setChat]

/-- Inversion of a successful `new_chat` run. -/
theorem new_chat_ok_inv (llm : ModelCall → Except Unit String)
    (parse : String → ParseOutcome) (uuid : Nat → String) (st : ServerState)
    (m : String) (r : NewChatOk) (st' : ServerState)
    (h : new_chat llm parse uuid st m = (.ok r, st')) :
    ∃ raw rep, llm (newChatCall m) = .ok raw ∧ processReply parse raw = .ok rep ∧
      r = ⟨uuid st.nextUuid, rep⟩ ∧
      st' = ⟨st.nextUuid + 1,
             setChat st.chats (uuid st.nextUuid)
               (newChatMessages m ++ [⟨"assistant", raw⟩])⟩ := by
  cases hllm : llm (newChatCall m) with
  | error e => simp [new_chat, hllm] at h
  | ok raw =>
    cases hpr : processReply parse raw with
    | error e => simp [new_chat, hllm, hpr] at h
    | ok rep =>
      rw [new_chat_eq_of_ok llm parse uuid st m raw rep hllm hpr] at h
      simp only [Prod.mk.injEq, Except.ok.injEq] at h
      exact ⟨raw, rep, rfl, hpr, h.1.symm, h.2.symm⟩

/-- Forward evaluation of a successful `continue_chat` run. -/
theorem continue_chat_eq_of_ok (llm : ModelCall → Except Unit String)
    (parse : String → ParseOutcome) (st : ServerState) (cid m : String)
    (hist : History) (raw : String) (rep : StructuredReply)
    (hhist : lookupChat st.chats cid = some hist)
    (hllm : llm (continueCall (hist ++ [⟨"user", m⟩])) = .ok raw)
    (hpr : processReply parse raw = .ok rep) :
    continue_chat llm parse st cid m =
      (.ok rep,
       ⟨st.nextUuid,
        setChat st.chats cid (hist ++ [⟨"user", m⟩, ⟨"assistant", raw⟩])⟩) := by
  simp [continue_chat, hhist, hllm, hpr]

/-- Inversion of a successful `continue_chat` run. -/
theorem continue_chat_ok_inv (llm : ModelCall → Except Unit String)
    (parse : String → ParseOutcome) (st : ServerState) (cid m : String)
    (r : StructuredReply) (st' : ServerState)
    (h : continue_chat llm parse st cid m = (.ok r, st')) :
    ∃ hist raw, lookupChat st.chats cid = some hist ∧
      llm (continueCall (hist ++ [⟨"user", m⟩])) = .ok raw ∧
      processReply parse raw = .ok r ∧
      st' = ⟨st.nextUuid,
             setChat st.chats cid (hist ++ [⟨"user", m⟩, ⟨"assistant", raw⟩])⟩ := by
  cases hhist : lookupChat st.chats cid with
  | none => simp [continue_chat, hhist] at h
  | some hist =>
    cases hllm : llm (continueCall (hist ++ [⟨"user", m⟩])) with
    | error e => simp [continue_chat, hhist, hllm] at h
    | ok raw =>
      cases hpr : processReply parse raw with
      | error e => simp [continue_chat, hhist, hllm, hpr] at h
      | ok rep =>
        rw [continue_chat_eq_of_ok llm parse st cid m hist raw rep hhist hllm hpr] at h
        simp only [Prod.mk.injEq, Except.ok.injEq] at h
        exact ⟨hist, raw, rfl, hllm, h.1 ▸ hpr, h.2.symm⟩

/-- Forward evaluation of `continue_chat` when the model call raises: the
user turn is already stored when the 500 is produced. -/
theorem continue_chat_eq_of_llm_error (llm : ModelCall → Except Unit String)
    (parse : String → ParseOutcome) (st : ServerState) (cid m : String)
    (hist : History) (e : Unit)
    (hhist : lookupChat st.chats cid = some hist)
    (hllm : llm (continueCall (hist ++ [⟨"user", m⟩])) = .error e) :
    continue_chat llm parse st cid m =
      (.error .internalError,
       ⟨st.nextUuid, setChat st.chats cid (hist ++ [⟨"user", m⟩])⟩) := by
  simp [continue_chat, hhist, hllm]

/-- Forward evaluation of `new_chat` when `.get` raises AttributeError
(reply is valid JSON but not an object): HTTP 500, three turns stored. -/
theorem new_chat_eq_of_reply_error (llm : ModelCall → Except Unit String)
    (parse : String → ParseOutcome) (uuid : Nat → String) (st : ServerState)
    (m raw : String) (e : Unit)
    (hllm : llm (newChatCall m) = .ok raw)
    (hpr : processReply parse raw = .error e) :
    new_chat llm parse uuid st m =
      (.error .internalError,
       ⟨st.nextUuid + 1,
        setChat st.chats (uuid st.nextUuid)
          (newChatMessages m ++ [⟨"assistant", raw⟩])⟩) := by
  simp [new_chat, hllm, hpr, setChat_setChat]

/-- Forward evaluation of `continue_chat` when `.get` raises AttributeError. -/
theorem continue_chat_eq_of_reply_error (llm : ModelCall → Except Unit String)
    (parse : String → ParseOutcome) (st : ServerState) (cid m : String)
    (hist : History) (raw : String) (e : Unit)
    (hhist : lookupChat st.chats cid = some hist)
    (hllm : llm (continueCall (hist ++ [⟨"user", m⟩])) = .ok raw)
    (hpr : processReply parse raw = .error e) :
    continue_chat llm parse st cid m =
      (.error .internalError,
       ⟨st.nextUuid,
        setChat st.chats cid (hist ++ [⟨"user", m⟩, ⟨"assistant", raw⟩])⟩) := by
  simp [continue_chat, hhist, hllm, hpr]

/-- Whatever happens inside, `new_chat` bumps the uuid position and writes
one history under the fresh id. -/
theorem new_chat_state (llm : ModelCall → Except Unit String)
    (parse : String → ParseOutcome) (uuid : Nat → String) (st : ServerState)
    (m : String) :
    ∃ hist, (new_chat llm parse uuid st m).2 =
      ⟨st.nextUuid + 1, setChat st.chats (uuid st.nextUuid) hist⟩ := by
  cases hllm : llm (newChatCall m) with
  | error e => exact ⟨newChatMessages m, by simp [new_chat, hllm]⟩
  | ok raw =>
    cases hpr : processReply parse raw with
    | error e =>
      exact ⟨newChatMessages m ++ [⟨"assistant", raw⟩],
             by simp [new_chat, hllm, hpr, setChat_setChat]⟩
    | ok rep =>
      exact ⟨newChatMessages m ++ [⟨"assistant", raw⟩],
             by simp [new_chat, hllm, hpr, setChat_setChat]⟩

/-- Whatever happens inside, `continue_chat` leaves the state alone (404) or
extends the addressed session by a suffix, never touching the uuid position. -/
theorem continue_chat_state (llm : ModelCall → Except Unit String)
    (parse : String → ParseOutcome) (st : ServerState) (cid m : String) :
    (continue_chat llm parse st cid m).2 = st ∨
    ∃ hist t, lookupChat st.chats cid = some hist ∧
      (continue_chat llm parse st cid m).2 =
        ⟨st.nextUuid, setChat st.chats cid (hist ++ t)⟩ := by
  cases hhist : lookupChat st.chats cid with
  | none => exact Or.inl (by simp [continue_chat, hhist])
  | some hist =>
    cases hllm : llm (continueCall (hist ++ [⟨"user", m⟩])) with
    | error e =>
      exact Or.inr ⟨hist, [⟨"user", m⟩], rfl, by simp [continue_chat, hhist, hllm]⟩
    | ok raw =>
      cases hpr : processReply parse raw with
      | error e =>
        exact Or.inr ⟨hist, [⟨"user", m⟩, ⟨"assistant", raw⟩], rfl,
                      by simp [continue_chat, hhist, hllm, hpr]⟩
      | ok rep =>
        exact Or.inr ⟨hist, [⟨"user", m⟩, ⟨"assistant", raw⟩], rfl,
                      by simp [continue_chat, hhist, hllm, hpr]⟩

/-! ### Store invariant and reachability -/

/-- Process-lifetime invariant of the `chats` dict: every stored id was
drawn from the uuid sequence strictly before the current position. -/
def goodState (uuid : Nat → String) (st : ServerState) : Prop :=
  ∀ id h, lookupChat st.chats id = some h → ∃ k, k < st.nextUuid ∧ id = uuid k

/-- The empty starting state satisfies the store invariant. -/
theorem goodState_empty (uuid : Nat → String) : goodState uuid ⟨0, []⟩ := by
  intro id h hx
  simp [lookupChat] at hx

/-- One handler run, with arbitrary request payload, model behaviour and
json.loads behaviour. -/
inductive Step (uuid : Nat → String) : ServerState → ServerState → Prop where
  | stepNew (llm : ModelCall → Except Unit String) (parse : String → ParseOutcome)
      (m : String) (st : ServerState) : Step uuid st (new_chat llm parse uuid st m).2
  | stepContinue (llm : ModelCall → Except Unit String) (parse : String → ParseOutcome)
      (chat_id m : String) (st : ServerState) :
      Step uuid st (continue_chat llm parse st chat_id m).2

/-- Reachability by any number of handler runs within one process lifetime. -/
inductive Reaches (uuid : Nat → String) : ServerState → ServerState → Prop where
  | refl (st : ServerState) : Reaches uuid st st
  | tail (st st' st'' : ServerState) :
      Reaches uuid st st' → Step uuid st' st'' → Reaches uuid st st''

/-- A handler run never rewinds the uuid position. -/
theorem step_nextUuid_le (uuid : Nat → String) (st st' : ServerState)
    (hs : Step uuid st st') : st.nextUuid ≤ st'.nextUuid := by
  cases hs with
  | stepNew llm parse m st =>
    obtain ⟨hist, hstate⟩ := new_chat_state llm parse uuid st m
    rw [hstate]
    exact Nat.le_succ _
  | stepContinue llm parse chat_id m st =>
    rcases continue_chat_state llm parse st chat_id m with heq | ⟨hist, t, _, heq⟩ <;>
      rw [heq]

/-- The uuid position is monotone along any run of the server. -/
theorem reaches_nextUuid_le (uuid : Nat → String) (st st' : ServerState)
    (hr : Reaches uuid st st') : st.nextUuid ≤ st'.nextUuid := by
  induction hr with
  | refl => exact Nat.le_refl _
  | tail s1 s2 hr hs ih => exact Nat.le_trans ih (step_nextUuid_le uuid s1 s2 hs)

/-! ### Concrete material for instantiating the theorems -/

/-- A model capability that always replies with a fixed plain-text string. -/
def llmHello : ModelCall → Except Unit String := fun _ => .ok "hello shredder"

/-- A model capability that always raises (network or API failure). -/
def llmFail : ModelCall → Except Unit String := fun _ => .error ()

/-- A json.loads behaviour on which every reply text fails to decode. -/
def parseAllFail : String → ParseOutcome := fun _ => .decodeError

/-- A concrete stand-in for the uuid4 draw sequence; its only relevant
property is injectivity. -/
def uuidSeq (n : Nat) : String := String.mk (List.replicate (n + 1) 'u')

/-- Distinct draws of the concrete uuid sequence are distinct strings. -/
theorem uuidSeq_injective : Function.Injective uuidSeq := by
  intro a b h
  have h2 := congrArg (fun s => s.data.length) h
  simp [uuidSeq] at h2
  exact h2

/-- The state of a freshly started process: no chats, no uuid drawn. -/
def st0 : ServerState := ⟨0, []⟩

/-- The history stored by the concrete /new_chat run used in witnesses. -/
def histW : History := newChatMessages "hi" ++ [⟨"assistant", "hello shredder"⟩]

/-- The state after the concrete /new_chat run used in witnesses. -/
def stW : ServerState := ⟨1, [(uuidSeq 0, histW)]⟩

/-- The stored ids of `stW` all come from the uuid sequence. -/
theorem goodState_stW : goodState uuidSeq stW := by
  intro id h hx
  by_cases hu : uuidSeq 0 = id
  · exact ⟨0, Nat.one_pos, hu.symm⟩
  · simp [stW, lookupChat, hu] at hx

/-! ### Claims -/

/-- C1: after a successful POST /new_chat with message m, GET /chats on the
returned chat_id yields exactly three turns in order: a system turn holding
the fixed meta-prompt, a user turn holding m, and an assistant turn holding
the raw reply text the model returned — the unparsed string, also when it
parsed successfully (the statement holds for every json.loads behaviour). -/
theorem C1_new_chat_then_get_three_turns
    (llm : ModelCall → Except Unit String) (parse : String → ParseOutcome)
    (uuid : Nat → String) (st : ServerState) (m raw : String)
    (r : NewChatOk) (st' : ServerState)
    (hllm : llm (newChatCall m) = .ok raw)
    (h : new_chat llm parse uuid st m = (.ok r, st')) :
    get_chat_history st' r.chat_id =
      .ok ⟨r.chat_id,
           [⟨"system", metaPrompt⟩, ⟨"user", m⟩, ⟨"assistant", raw⟩]⟩ := by
  obtain ⟨raw', rep, hllm', hpr, hr, hst⟩ := new_chat_ok_inv llm parse uuid st m r st' h
  rw [hllm] at hllm'
  obtain rfl : raw = raw' := by injection hllm'
  subst hr hst
  simp [get_chat_history, lookupChat_setChat_self, newChatMessages]

/-- C1 witness: the concrete run `new_chat llmHello parseAllFail uuidSeq st0 "hi"`
succeeds and the subsequent GET returns exactly the three expected turns. -/
theorem C1_new_chat_then_get_three_turns_witness :
    get_chat_history stW (uuidSeq 0) =
      .ok ⟨uuidSeq 0,
           [⟨"system", metaPrompt⟩, ⟨"user", "hi"⟩,
            ⟨"assistant", "hello shredder"⟩]⟩ :=
  C1_new_chat_then_get_three_turns llmHello parseAllFail uuidSeq st0 "hi"
    "hello shredder" ⟨uuidSeq 0, fallbackReply "hello shredder"⟩ stW rfl rfl

/-- C6: continuing an unknown chat id returns 404 Not Found with the state
unchanged, for every model behaviour and json.loads behaviour — no crash and
no other outcome is possible. -/
theorem C6_unknown_chat_id_404
    (llm : ModelCall → Except Unit String) (parse : String → ParseOutcome)
    (st : ServerState) (chat_id m : String)
    (h : lookupChat st.chats chat_id = none) :
    continue_chat llm parse st chat_id m = (.error .notFound, st) := by
  simp [continue_chat, h]

/-- C6 witness: continuing a never-issued id on the empty starting state. -/
theorem C6_unknown_chat_id_404_witness :
    continue_chat llmHello parseAllFail st0 "missing" "hi" =
      (.error .notFound, st0) :=
  C6_unknown_chat_id_404 llmHello parseAllFail st0 "missing" "hi" rfl

/-- C10: when the model call inside /continue raises, the handler answers
HTTP 500, but the user turn appended before the call survives in the stored
history — the failed request is not rolled back. -/
theorem C10_failed_continue_keeps_user_turn
    (llm : ModelCall → Except Unit String) (parse : String → ParseOutcome)
    (st : ServerState) (chat_id m : String) (hist : History) (e : Unit)
    (hhist : lookupChat st.chats chat_id = some hist)
    (hllm : llm (continueCall (hist ++ [⟨"user", m⟩])) = .error e) :
    (continue_chat llm parse st chat_id m).1 = .error .internalError ∧
    lookupChat (continue_chat llm parse st chat_id m).2.chats chat_id =
      some (hist ++ [⟨"user", m⟩]) := by
  rw [continue_chat_eq_of_llm_error llm parse st chat_id m hist e hhist hllm]
  exact ⟨rfl, lookupChat_setChat_self _ _ _⟩

/-- C10 witness: a concrete failing model call on a stored session leaves
the new user turn in the history while the request errors. -/
theorem C10_failed_continue_keeps_user_turn_witness :
    (continue_chat llmFail parseAllFail stW (uuidSeq 0) "again").1 =
      .error .internalError ∧
    lookupChat (continue_chat llmFail parseAllFail stW (uuidSeq 0) "again").2.chats
      (uuidSeq 0) = some (histW ++ [⟨"user", "again"⟩]) :=
  C10_failed_continue_keeps_user_turn llmFail parseAllFail stW (uuidSeq 0) "again"
    histW () rfl rfl

/-- C4: when the model reply is not valid JSON (json.loads raises
JSONDecodeError on it), both endpoints answer 200 with return_message equal
to the raw reply text, is_finished false and data null. -/
theorem C4_invalid_json_fallback_fields
    (llm : ModelCall → Except Unit String) (parse : String → ParseOutcome)
    (uuid : Nat → String) (st : ServerState) (chat_id m raw : String)
    (hist : History)
    (hparse : parse raw = .decodeError) :
    (llm (newChatCall m) = .ok raw →
      (new_chat llm parse uuid st m).1 =
        .ok ⟨uuid st.nextUuid,
             { return_message := .str raw, is_finished := .bool false,
               data := .null }⟩) ∧
    (lookupChat st.chats chat_id = some hist →
      llm (continueCall (hist ++ [⟨"user", m⟩])) = .ok raw →
      (continue_chat llm parse st chat_id m).1 =
        .ok { return_message := .str raw, is_finished := .bool false,
              data := .null }) := by
  have hpr : processReply parse raw = .ok (fallbackReply raw) := by
    simp [processReply, hparse]
  constructor
  · intro hllm
    rw [new_chat_eq_of_ok llm parse uuid st m raw (fallbackReply raw) hllm hpr]
    rfl
  · intro hhist hllm
    rw [continue_chat_eq_of_ok llm parse st chat_id m hist raw (fallbackReply raw)
          hhist hllm hpr]
    rfl

/-- C4 witness: the concrete reply "hello shredder" with a failing
json.loads produces exactly the raw-text fallback fields on /new_chat. -/
theorem C4_invalid_json_fallback_fields_witness :
    (new_chat llmHello parseAllFail uuidSeq st0 "hi").1 =
      .ok ⟨uuidSeq 0,
           { return_message := .str "hello shredder", is_finished := .bool false,
             data := .null }⟩ :=
  (C4_invalid_json_fallback_fields llmHello parseAllFail uuidSeq st0 "other" "hi"
      "hello shredder" [] rfl).1 rfl

/-- C5: when the model reply parses as a JSON object with is_finished true
and a data object carrying the four keys destinations, travel_style,
surf_pref and extras, both endpoints return that data mapping unchanged. -/
theorem C5_finished_data_echoed
    (llm : ModelCall → Except Unit String) (parse : String → ParseOutcome)
    (uuid : Nat → String) (st : ServerState) (chat_id m raw : String)
    (fields d : List (String × Json)) (hist : History)
    (hparse : parse raw = .ok (.obj fields))
    (hfin : objGetD fields "is_finished" (.bool false) = .bool true)
    (hdata : objGetD fields "data" .null = .obj d)
    (_hkeys : "destinations" ∈ d.map Prod.fst ∧ "travel_style" ∈ d.map Prod.fst ∧
             "surf_pref" ∈ d.map Prod.fst ∧ "extras" ∈ d.map Prod.fst) :
    (llm (newChatCall m) = .ok raw →
      (new_chat llm parse uuid st m).1 =
        .ok ⟨uuid st.nextUuid,
             { return_message := objGetD fields "return_message" (.str raw),
               is_finished := .bool true, data := .obj d }⟩) ∧
    (lookupChat st.chats chat_id = some hist →
      llm (continueCall (hist ++ [⟨"user", m⟩])) = .ok raw →
      (continue_chat llm parse st chat_id m).1 =
        .ok { return_message := objGetD fields "return_message" (.str raw),
              is_finished := .bool true, data := .obj d }) := by
  have hpr : processReply parse raw =
      .ok { return_message := objGetD fields "return_message" (.str raw),
            is_finished := .bool true, data := .obj d } := by
    simp [processReply, hparse, hfin, hdata]
  constructor
  · intro hllm
    rw [new_chat_eq_of_ok llm parse uuid st m raw _ hllm hpr]
  · intro hhist hllm
    rw [continue_chat_eq_of_ok llm parse st chat_id m hist raw _ hhist hllm hpr]

/-- The raw reply text of the concrete finished-conversation run. -/
def rawFinished : String :=
  "\x7b\"return_message\": \"Epic\", \"is_finished\": true, \"data\": \x7b\"destinations\": \"San Diego\", \"travel_style\": \"budget\", \"surf_pref\": \"barrels\", \"extras\": \"volleyball\"\x7d\x7d"

/-- The data object of the concrete finished-conversation reply. -/
def finishedData : List (String × Json) :=
  [("destinations", .str "San Diego"), ("travel_style", .str "budget"),
   ("surf_pref", .str "barrels"), ("extras", .str "volleyball")]

/-- The parsed JSON object of the concrete finished-conversation reply. -/
def finishedFields : List (String × Json) :=
  [("return_message", .str "Epic"), ("is_finished", .bool true),
   ("data", .obj finishedData)]

/-- The json.loads behaviour on the concrete finished-conversation reply. -/
def parseFinished : String → ParseOutcome :=
  fun s => if s = rawFinished then .ok (.obj finishedFields) else .decodeError

/-- A model capability answering with the finished-conversation JSON text. -/
def llmFinished : ModelCall → Except Unit String := fun _ => .ok rawFinished

set_option maxRecDepth 4000 in
/-- C5 witness: the concrete finished reply comes back from /continue with
its data mapping returned exactly as parsed. -/
theorem C5_finished_data_echoed_witness :
    (continue_chat llmFinished parseFinished stW (uuidSeq 0) "done").1 =
      .ok { return_message := .str "Epic", is_finished := .bool true,
            data := .obj finishedData } :=
  (C5_finished_data_echoed llmFinished parseFinished uuidSeq stW (uuidSeq 0) "done"
      rawFinished finishedFields finishedData histW rfl rfl rfl
      (by simp [finishedData])).2 rfl rfl

/-- A model reply that is valid JSON but not a JSON object. -/
def rawNum : String := "123"

/-- json.loads on "123" succeeds and yields the number 123, not a dict. -/
def parseNum : String → ParseOutcome :=
  fun s => if s = rawNum then .ok (.num 123) else .decodeError

/-- A model capability answering with the text "123". -/
def llmNum : ModelCall → Except Unit String := fun _ => .ok rawNum

/-- C2 counterexample: the reply "123" fails to parse as the expected JSON
object (json.loads yields the number 123), yet /new_chat does not answer 200
with the raw-text fallback: `.get` on the int raises AttributeError, the
inner handler only catches JSONDecodeError, and the request errors with
HTTP 500 — refuting the claim that no parse failure of the reply ever
produces an error response. -/
theorem C2_counterexample_non_object_reply_500 :
    parseNum rawNum = .ok (.num 123) ∧
    (new_chat llmNum parseNum uuidSeq st0 "hi").1 = .error .internalError :=
  ⟨rfl, rfl⟩

/-- C2 amended: only a reply on which json.loads raises JSONDecodeError gets
the normal 200 raw-text fallback (from both endpoints); a reply that
json.loads turns into a non-object value instead makes both endpoints raise
AttributeError and answer HTTP 500. -/
theorem C2_amended_parse_failure_policy
    (llm : ModelCall → Except Unit String) (parse : String → ParseOutcome)
    (uuid : Nat → String) (st : ServerState) (chat_id m raw : String)
    (hist : History) :
    (parse raw = .decodeError →
      (llm (newChatCall m) = .ok raw →
        (new_chat llm parse uuid st m).1 =
          .ok ⟨uuid st.nextUuid, fallbackReply raw⟩) ∧
      (lookupChat st.chats chat_id = some hist →
        llm (continueCall (hist ++ [⟨"user", m⟩])) = .ok raw →
        (continue_chat llm parse st chat_id m).1 = .ok (fallbackReply raw))) ∧
    (∀ v, parse raw = .ok v → (∀ fields, v ≠ .obj fields) →
      (llm (newChatCall m) = .ok raw →
        (new_chat llm parse uuid st m).1 = .error .internalError) ∧
      (lookupChat st.chats chat_id = some hist →
        llm (continueCall (hist ++ [⟨"user", m⟩])) = .ok raw →
        (continue_chat llm parse st chat_id m).1 = .error .internalError)) := by
  constructor
  · intro hparse
    have hpr : processReply parse raw = .ok (fallbackReply raw) := by
      simp [processReply, hparse]
    constructor
    · intro hllm
      rw [new_chat_eq_of_ok llm parse uuid st m raw (fallbackReply raw) hllm hpr]
    · intro hhist hllm
      rw [continue_chat_eq_of_ok llm parse st chat_id m hist raw (fallbackReply raw)
            hhist hllm hpr]
  · intro v hparse hnotobj
    have hpr : processReply parse raw = .error () := by
      unfold processReply
      rw [hparse]
      cases v with
      | obj fields => exact absurd rfl (hnotobj fields)
      | null => rfl
      | bool b => rfl
      | num n => rfl
      | str s => rfl
      | arr elems => rfl
    constructor
    · intro hllm
      rw [new_chat_eq_of_reply_error llm parse uuid st m raw () hllm hpr]
    · intro hhist hllm
      rw [continue_chat_eq_of_reply_error llm parse st chat_id m hist raw ()
            hhist hllm hpr]

/-- C2 amended witness: the fallback branch on a non-JSON reply and the 500
branch on a valid-JSON non-object reply, both on concrete runs. -/
theorem C2_amended_parse_failure_policy_witness :
    (new_chat llmHello parseAllFail uuidSeq st0 "hi").1 =
      .ok ⟨uuidSeq 0, fallbackReply "hello shredder"⟩ ∧
    (new_chat llmNum parseNum uuidSeq st0 "hi").1 = .error .internalError :=
  ⟨((C2_amended_parse_failure_policy llmHello parseAllFail uuidSeq st0 "other" "hi"
        "hello shredder" []).1 rfl).1 rfl,
   ((C2_amended_parse_failure_policy llmNum parseNum uuidSeq st0 "other" "hi"
        rawNum []).2 (.num 123) rfl (fun _ h => Json.noConfusion h)).1 rfl⟩

/-- The raw reply text of the concrete not-finished-with-data run. -/
def rawNotFinished : String :=
  "\x7b\"return_message\": \"x\", \"is_finished\": false, \"data\": \x7b\"a\": \"b\"\x7d\x7d"

/-- The parsed JSON object of the not-finished-with-data reply: is_finished
false together with a non-null data object. -/
def notFinishedFields : List (String × Json) :=
  [("return_message", .str "x"), ("is_finished", .bool false),
   ("data", .obj [("a", .str "b")])]

/-- The json.loads behaviour on the not-finished-with-data reply. -/
def parseNotFinished : String → ParseOutcome :=
  fun s => if s = rawNotFinished then .ok (.obj notFinishedFields) else .decodeError

/-- A model capability answering with the not-finished-with-data JSON text. -/
def llmNotFinished : ModelCall → Except Unit String := fun _ => .ok rawNotFinished

set_option maxRecDepth 4000 in
/-- C3 counterexample: a model reply carrying is_finished false together
with a non-null data object is echoed verbatim by /new_chat, so the
response violates the claimed invariant (data null whenever is_finished is
false): the endpoints never enforce it. -/
theorem C3_counterexample_unfinished_with_data :
    (new_chat llmNotFinished parseNotFinished uuidSeq st0 "hi").1 =
      .ok ⟨uuidSeq 0,
           { return_message := .str "x", is_finished := .bool false,
             data := .obj [("a", .str "b")] }⟩ ∧
    Json.obj [("a", .str "b")] ≠ Json.null :=
  ⟨rfl, fun h => Json.noConfusion h⟩

/-- C3 amended: the endpoints copy is_finished and data verbatim from the
parsed reply object, so the invariant (data is null whenever is_finished is
false) holds exactly when the model reply itself satisfies it; it holds
unconditionally on the parse-failure path. -/
theorem C3_amended_invariant_iff_model_obeys
    (llm : ModelCall → Except Unit String) (parse : String → ParseOutcome)
    (uuid : Nat → String) (st : ServerState) (chat_id m : String)
    (hmodel : ∀ raw fields, parse raw = .ok (.obj fields) →
        objGetD fields "is_finished" (.bool false) = .bool false →
        objGetD fields "data" Json.null = Json.null) :
    (∀ r st', new_chat llm parse uuid st m = (.ok r, st') →
        r.reply.is_finished = .bool false → r.reply.data = .null) ∧
    (∀ r st', continue_chat llm parse st chat_id m = (.ok r, st') →
        r.is_finished = .bool false → r.data = .null) := by
  have key : ∀ raw rep, processReply parse raw = .ok rep →
      rep.is_finished = .bool false → rep.data = .null := by
    intro raw rep hpr hfin
    unfold processReply at hpr
    cases hparse : parse raw with
    | decodeError =>
      rw [hparse] at hpr
      injection hpr with hpr
      rw [← hpr]
      rfl
    | ok v =>
      rw [hparse] at hpr
      cases v with
      | obj fields =>
        injection hpr with hpr
        rw [← hpr] at hfin ⊢
        exact hmodel raw fields hparse hfin
      | null => exact Except.noConfusion hpr
      | bool b => exact Except.noConfusion hpr
      | num n => exact Except.noConfusion hpr
      | str s => exact Except.noConfusion hpr
      | arr elems => exact Except.noConfusion hpr
  constructor
  · intro r st' h hfin
    obtain ⟨raw, rep, _, hpr, hr, _⟩ := new_chat_ok_inv llm parse uuid st m r st' h
    subst hr
    exact key raw rep hpr hfin
  · intro r st' h hfin
    obtain ⟨hist, raw, _, _, hpr, _⟩ := continue_chat_ok_inv llm parse st chat_id m r st' h
    exact key raw r hpr hfin

/-- C3 amended witness: on a concrete run whose json.loads behaviour always
fails to decode (so it trivially obeys the invariant), the /new_chat reply
with is_finished false carries null data. -/
theorem C3_amended_invariant_iff_model_obeys_witness :
    (fallbackReply "hello shredder").data = Json.null :=
  (C3_amended_invariant_iff_model_obeys llmHello parseAllFail uuidSeq st0 "other" "hi"
      (fun _ _ h => ParseOutcome.noConfusion h)).1
    ⟨uuidSeq 0, fallbackReply "hello shredder"⟩ stW rfl rfl

/-- C7: a successful /continue on an existing session appends exactly two
turns to that session — a user turn with m, then an assistant turn with the
raw reply — with no new system turn; the model call it makes carries the
full accumulated history (the stored turns plus the new user turn) and no
JSON-object response-format constraint; and the reply goes through the same
parse-or-fallback processing as /new_chat. -/
theorem C7_continue_appends_two_turns
    (llm : ModelCall → Except Unit String) (parse : String → ParseOutcome)
    (st : ServerState) (chat_id m : String) (hist : History) (raw : String)
    (r : StructuredReply) (st' : ServerState)
    (hhist : lookupChat st.chats chat_id = some hist)
    (hllm : llm (continueCall (hist ++ [⟨"user", m⟩])) = .ok raw)
    (h : continue_chat llm parse st chat_id m = (.ok r, st')) :
    lookupChat st'.chats chat_id =
      some (hist ++ [⟨"user", m⟩, ⟨"assistant", raw⟩]) ∧
    (continueCall (hist ++ [⟨"user", m⟩])).messages = hist ++ [⟨"user", m⟩] ∧
    (continueCall (hist ++ [⟨"user", m⟩])).response_format_json = false ∧
    processReply parse raw = .ok r := by
  obtain ⟨hist', raw', hhist', hllm', hpr, hst⟩ :=
    continue_chat_ok_inv llm parse st chat_id m r st' h
  rw [hhist] at hhist'
  obtain rfl : hist = hist' := by injection hhist'
  rw [hllm] at hllm'
  obtain rfl : raw = raw' := by injection hllm'
  subst hst
  exact ⟨lookupChat_setChat_self _ _ _, rfl, rfl, hpr⟩

/-- The state after the concrete /continue run used in the C7 witness. -/
def stW2 : ServerState :=
  ⟨1, [(uuidSeq 0, histW ++ [⟨"user", "again"⟩, ⟨"assistant", "hello shredder"⟩])]⟩

/-- C7 witness: the concrete /continue run appends exactly the user and
assistant turns, with the full history and no format constraint in its
model call. -/
theorem C7_continue_appends_two_turns_witness :
    lookupChat stW2.chats (uuidSeq 0) =
      some (histW ++ [⟨"user", "again"⟩, ⟨"assistant", "hello shredder"⟩]) ∧
    (continueCall (histW ++ [⟨"user", "again"⟩])).messages =
      histW ++ [⟨"user", "again"⟩] ∧
    (continueCall (histW ++ [⟨"user", "again"⟩])).response_format_json = false ∧
    processReply parseAllFail "hello shredder" =
      .ok (fallbackReply "hello shredder") :=
  C7_continue_appends_two_turns llmHello parseAllFail stW (uuidSeq 0) "again"
    histW "hello shredder" (fallbackReply "hello shredder") stW2 rfl rfl rfl

/-- C8: the chat store is append-only. From any state whose ids were all
drawn from the (injective) uuid sequence: /new_chat leaves every stored
session bound, unchanged, and keeps the invariant; /continue at worst
extends a stored session by a suffix (never rewriting or reordering its
existing turns) and keeps the invariant; GET /chats takes the state
read-only (its Lean type returns no state), so no operation ever deletes a
session or edits an appended turn. -/
theorem C8_store_append_only (uuid : Nat → String)
    (llm1 : ModelCall → Except Unit String) (parse1 : String → ParseOutcome)
    (llm2 : ModelCall → Except Unit String) (parse2 : String → ParseOutcome)
    (st : ServerState) (m1 chat_id m2 id : String) (h : History)
    (hinj : Function.Injective uuid) (hgood : goodState uuid st)
    (hid : lookupChat st.chats id = some h) :
    (lookupChat (new_chat llm1 parse1 uuid st m1).2.chats id = some h ∧
     goodState uuid (new_chat llm1 parse1 uuid st m1).2) ∧
    ((∃ t, lookupChat (continue_chat llm2 parse2 st chat_id m2).2.chats id =
        some (h ++ t)) ∧
     goodState uuid (continue_chat llm2 parse2 st chat_id m2).2) := by
  obtain ⟨histN, hstateN⟩ := new_chat_state llm1 parse1 uuid st m1
  constructor
  · constructor
    · rw [hstateN]
      obtain ⟨k, hk, hkid⟩ := hgood id h hid
      have hne : id ≠ uuid st.nextUuid := by
        intro he
        have : k = st.nextUuid := hinj ((hkid ▸ he : uuid k = uuid st.nextUuid))
        omega
      rw [lookupChat_setChat_ne st.chats (uuid st.nextUuid) id histN hne]
      exact hid
    · rw [hstateN]
      intro id' h' hx
      rcases lookupChat_setChat_some st.chats (uuid st.nextUuid) id' histN h' hx with
        heq | hold
      · exact ⟨st.nextUuid, Nat.lt_succ_self _, heq⟩
      · obtain ⟨k, hk, hkid⟩ := hgood id' h' hold
        exact ⟨k, Nat.lt_succ_of_lt hk, hkid⟩
  · rcases continue_chat_state llm2 parse2 st chat_id m2 with heq | ⟨histC, t, hh, heq⟩
    · constructor
      · exact ⟨[], by rw [heq]; simpa using hid⟩
      · rw [heq]; exact hgood
    · constructor
      · by_cases hcid : id = chat_id
        · subst hcid
          rw [hid] at hh
          obtain rfl : h = histC := by injection hh
          exact ⟨t, by rw [heq]; exact lookupChat_setChat_self _ _ _⟩
        · refine ⟨[], ?_⟩
          rw [heq]
          rw [lookupChat_setChat_ne st.chats chat_id id (histC ++ t) hcid]
          simpa using hid
      · rw [heq]
        intro id' h' hx
        rcases lookupChat_setChat_some st.chats chat_id id' (histC ++ t) h' hx with
          heq' | hold
        · obtain ⟨k, hk, hkid⟩ := hgood chat_id histC hh
          exact ⟨k, hk, heq' ▸ hkid⟩
        · exact hgood id' h' hold

/-- C8 witness: on the concrete one-session state, /new_chat keeps the
stored session verbatim and /continue only extends it; both results keep
every id inside the drawn uuid range. -/
theorem C8_store_append_only_witness :
    (lookupChat (new_chat llmHello parseAllFail uuidSeq stW "yo").2.chats
        (uuidSeq 0) = some histW ∧
     goodState uuidSeq (new_chat llmHello parseAllFail uuidSeq stW "yo").2) ∧
    ((∃ t, lookupChat
        (continue_chat llmHello parseAllFail stW (uuidSeq 0) "again").2.chats
        (uuidSeq 0) = some (histW ++ t)) ∧
     goodState uuidSeq
       (continue_chat llmHello parseAllFail stW (uuidSeq 0) "again").2) :=
  C8_store_append_only uuidSeq llmHello parseAllFail llmHello parseAllFail stW
    "yo" (uuidSeq 0) "again" (uuidSeq 0) histW uuidSeq_injective goodState_stW rfl

/-- C9: the chat ids of two distinct successful /new_chat runs in one
process lifetime are distinct: the second run starts from any state
reachable after the first, and uuid draws are never reused. -/
theorem C9_new_chat_ids_unique (uuid : Nat → String)
    (hinj : Function.Injective uuid)
    (llm1 : ModelCall → Except Unit String) (parse1 : String → ParseOutcome)
    (llm2 : ModelCall → Except Unit String) (parse2 : String → ParseOutcome)
    (stA stA' stB stB' : ServerState) (m1 m2 : String) (r1 r2 : NewChatOk)
    (h1 : new_chat llm1 parse1 uuid stA m1 = (.ok r1, stA'))
    (hreach : Reaches uuid stA' stB)
    (h2 : new_chat llm2 parse2 uuid stB m2 = (.ok r2, stB')) :
    r1.chat_id ≠ r2.chat_id := by
  obtain ⟨raw1, rep1, _, _, hr1, hst1⟩ :=
    new_chat_ok_inv llm1 parse1 uuid stA m1 r1 stA' h1
  obtain ⟨raw2, rep2, _, _, hr2, _⟩ :=
    new_chat_ok_inv llm2 parse2 uuid stB m2 r2 stB' h2
  have hle := reaches_nextUuid_le uuid stA' stB hreach
  rw [hst1] at hle
  have hle' : stA.nextUuid + 1 ≤ stB.nextUuid := hle
  subst hr1
  subst hr2
  intro he
  have he' : uuid stA.nextUuid = uuid stB.nextUuid := he
  have := hinj he'
  omega

/-- The state after the second concrete /new_chat run in the C9 witness. -/
def stW9 : ServerState :=
  ⟨2, [(uuidSeq 0, histW),
       (uuidSeq 1, newChatMessages "yo" ++ [⟨"assistant", "hello shredder"⟩])]⟩

/-- C9 witness: two concrete successive /new_chat runs return distinct ids. -/
theorem C9_new_chat_ids_unique_witness : uuidSeq 0 ≠ uuidSeq 1 :=
  C9_new_chat_ids_unique uuidSeq uuidSeq_injective llmHello parseAllFail
    llmHello parseAllFail st0 stW stW stW9 "hi" "yo"
    ⟨uuidSeq 0, fallbackReply "hello shredder"⟩
    ⟨uuidSeq 1, fallbackReply "hello shredder"⟩
    rfl (Reaches.refl stW) rfl

end Swellyo
